import Mathlib

/-!
Verification of the Loom processor pipeline (`src/app.py`).

The Python source is shallowly embedded as pure Lean functions. External
effects (the `yt-dlp` / `curl` / `ffmpeg` subprocesses, the filesystem and
the Google Drive API) are modelled by explicit "world" records supplying
each tool's observable outcome (exit status, diagnostic output, files
produced, per-upload success), and every function additionally returns the
effect record the claims talk about (directories created/removed, remote
`create` calls issued, fallback invocations, the ffmpeg filter argument).
Out-of-process tools are modelled as always returning a process result;
Python-level exceptions from a missing binary are outside the model.
-/

namespace Loom

/-! ## SourceResolver: `extract_video_id` (app.py lines 161-166)

The Python code runs `re.search(r'loom.com/(?:share|embed)/([a-zA-Z0-9]+)', url)`.
The model reproduces the regex's semantics exactly: the unescaped `.` matches
any single character except a newline (`re.DOTALL` is not set), `re.search`
takes the leftmost position at which the whole pattern matches, and the
greedy `[a-zA-Z0-9]+` group is the maximal alphanumeric run following the
matched prefix. -/

/-- The character class `[a-zA-Z0-9]` (ASCII letters and digits). -/
def isAlnumChar (c : Char) : Bool := c.isAlpha || c.isDigit

/-- Strip an exact literal prefix, returning the rest of the input. -/
def dropLiteral : List Char → List Char → Option (List Char)
  | [], s => some s
  | _ :: _, [] => none
  | p :: ps, c :: cs => if c = p then dropLiteral ps cs else none

/-- Greedily split off the maximal leading alphanumeric run. -/
def takeAlnum : List Char → List Char × List Char
  | [] => ([], [])
  | c :: cs =>
    if isAlnumChar c then
      let r := takeAlnum cs
      (c :: r.1, r.2)
    else ([], c :: cs)

/-- The pattern's unescaped `.`: consumes one character, except that
without `re.DOTALL` it does not match a newline. -/
def dropDot : List Char → Option (List Char)
  | [] => none
  | ch :: t => if ch = '\n' then none else some t

/-- Try to match `loom.com/(?:share|embed)/([a-zA-Z0-9]+)` anchored at the
start of `s`, returning the captured group: the literal `loom`, one
non-newline character for the unescaped `.`, the literal `com/`, the
`share/`-or-`embed/` alternation, then a nonempty greedy alphanumeric
run. -/
def matchLoomAt (s : List Char) : Option (List Char) :=
  (dropLiteral "loom".data s).bind fun r1 =>
  (dropDot r1).bind fun r2 =>
  (dropLiteral "com/".data r2).bind fun r3 =>
  ((dropLiteral "share/".data r3).orElse fun _ => dropLiteral "embed/".data r3).bind fun r4 =>
  if (takeAlnum r4).1.isEmpty then none else some (takeAlnum r4).1

/-- `re.search`: the leftmost position where the pattern matches wins. -/
def searchLoom : List Char → Option (List Char)
  | [] => none
  | c :: cs =>
    match matchLoomAt (c :: cs) with
    | some t => some t
    | none => searchLoom cs

/-- `extract_video_id` (app.py 161-166): the captured token, or the
`ValueError` message. A pure function: it performs no effect of any kind. -/
def extract_video_id (loom_url : String) : Except String String :=
  match searchLoom loom_url.data with
  | some t => .ok (String.mk t)
  | none => .error "Could not extract video ID from the provided Loom URL"

/-! ## Python string ordering (used by `sorted(os.listdir(...))`) -/

/-- Python's `<=` on strings: lexicographic by code point. -/
def lexLe : List Char → List Char → Bool
  | [], _ => true
  | _ :: _, [] => false
  | a :: as, b :: bs => if a < b then true else if b < a then false else lexLe as bs

/-- The order `sorted()` sorts by, as a relation on `String`. -/
abbrev pyStrLe (a b : String) : Prop := lexLe a.data b.data = true

theorem lexLe_total : ∀ a b : List Char, lexLe a b = true ∨ lexLe b a = true
  | [], _ => Or.inl rfl
  | _ :: _, [] => Or.inr rfl
  | a :: as, b :: bs => by
    rcases lt_trichotomy a b with h | h | h
    · left
      simp [lexLe, h]
    · subst h
      rcases lexLe_total as bs with h2 | h2
      · left
        simp [lexLe, lt_irrefl, h2]
      · right
        simp [lexLe, lt_irrefl, h2]
    · right
      simp [lexLe, h]

theorem lexLe_trans : ∀ a b c : List Char,
    lexLe a b = true → lexLe b c = true → lexLe a c = true
  | [], _, _, _, _ => rfl
  | _ :: _, [], _, h, _ => by simp [lexLe] at h
  | _ :: _, _ :: _, [], _, h => by simp [lexLe] at h
  | a :: as, b :: bs, c :: cs, h1, h2 => by
    simp only [lexLe] at h1 h2 ⊢
    rcases lt_trichotomy a b with hab | hab | hab
    · rcases lt_trichotomy b c with hbc | hbc | hbc
      · simp [lt_trans hab hbc]
      · subst hbc
        simp [hab]
      · simp [lt_irrefl, not_lt_of_gt hbc, hbc] at h2
    · subst hab
      rcases lt_trichotomy a c with hbc | hbc | hbc
      · simp [hbc]
      · subst hbc
        simp only [lt_irrefl, if_false] at h1 h2 ⊢
        exact lexLe_trans as bs cs h1 h2
      · simp [lt_irrefl, not_lt_of_gt hbc, hbc] at h2
    · simp [lt_irrefl, not_lt_of_gt hab, hab] at h1

instance : IsTotal String pyStrLe := ⟨fun a b => lexLe_total a.data b.data⟩

instance : IsTrans String pyStrLe := ⟨fun a b c => lexLe_trans a.data b.data c.data⟩

theorem lexLe_cons_self (c : Char) (as bs : List Char) :
    lexLe (c :: as) (c :: bs) = lexLe as bs := by
  simp [lexLe, lt_irrefl]

theorem lexLe_cons_of_lt {a b : Char} (h : a < b) (as bs : List Char) :
    lexLe (a :: as) (b :: bs) = true := by
  simp [lexLe, h]

theorem lexLe_append_left : ∀ (p x y : List Char), lexLe (p ++ x) (p ++ y) = lexLe x y
  | [], _, _ => rfl
  | c :: p, x, y => by
    simpa [lexLe_cons_self] using lexLe_append_left p x y

/-! ## ffmpeg's `%04d` frame numbering (app.py line 245) -/

/-- The decimal digit `d` as a character. -/
def digitChar (d : Nat) : Char := Char.ofNat (48 + d)

/-- `printf`-style `%04d`: zero-padded to four digits, full decimal beyond
`9999` (ffmpeg's behaviour for the output pattern `frame_%04d.jpg`). -/
def fmt04 (n : Nat) : String :=
  if n < 10000 then
    String.mk [digitChar (n / 1000), digitChar (n / 100 % 10),
      digitChar (n / 10 % 10), digitChar (n % 10)]
  else Nat.repr n

/-- The name ffmpeg gives the `k`-th extracted frame (1-based capture index). -/
def frameName (k : Nat) : String := "frame_" ++ fmt04 k ++ ".jpg"

/-- The frame files a run that captured `n` frames leaves in the frames
directory, in capture order. -/
def frameNames (n : Nat) : List String := (List.range n).map (fun i => frameName (i + 1))

theorem digitChar_lt_digitChar : ∀ a, a < 10 → ∀ b, b < 10 → a < b →
    digitChar a < digitChar b := by decide

theorem digitChar_inj : ∀ a, a < 10 → ∀ b, b < 10 →
    digitChar a = digitChar b → a = b := by decide

theorem fmt04_data_of_lt {n : Nat} (h : n < 10000) :
    (fmt04 n).data = [digitChar (n / 1000), digitChar (n / 100 % 10),
      digitChar (n / 10 % 10), digitChar (n % 10)] := by
  simp [fmt04, h]

theorem lexLe_fmt04_append {a b : Nat} (ha : a < 10000) (hb : b < 10000) (hab : a < b)
    (u v : List Char) :
    lexLe ((fmt04 a).data ++ u) ((fmt04 b).data ++ v) = true := by
  rw [fmt04_data_of_lt ha, fmt04_data_of_lt hb]
  have h1a : a / 1000 < 10 := by omega
  have h1b : b / 1000 < 10 := by omega
  have h2a : a / 100 % 10 < 10 := by omega
  have h2b : b / 100 % 10 < 10 := by omega
  have h3a : a / 10 % 10 < 10 := by omega
  have h3b : b / 10 % 10 < 10 := by omega
  have h4a : a % 10 < 10 := by omega
  have h4b : b % 10 < 10 := by omega
  simp only [List.cons_append, List.nil_append]
  rcases lt_trichotomy (a / 1000) (b / 1000) with h1 | h1 | h1
  · simp [lexLe_cons_of_lt (digitChar_lt_digitChar _ h1a _ h1b h1)]
  · rw [h1, lexLe_cons_self]
    rcases lt_trichotomy (a / 100 % 10) (b / 100 % 10) with h2 | h2 | h2
    · simp [lexLe_cons_of_lt (digitChar_lt_digitChar _ h2a _ h2b h2)]
    · rw [h2, lexLe_cons_self]
      rcases lt_trichotomy (a / 10 % 10) (b / 10 % 10) with h3 | h3 | h3
      · simp [lexLe_cons_of_lt (digitChar_lt_digitChar _ h3a _ h3b h3)]
      · rw [h3, lexLe_cons_self]
        have h4 : a % 10 < b % 10 := by omega
        simp [lexLe_cons_of_lt (digitChar_lt_digitChar _ h4a _ h4b h4)]
      · exact absurd hab (by omega)
    · exact absurd hab (by omega)
  · exact absurd hab (by omega)

theorem pyStrLe_frameName {i j : Nat} (hi : i < 10000) (hj : j < 10000) (hij : i < j) :
    pyStrLe (frameName i) (frameName j) := by
  show lexLe _ _ = true
  simp only [frameName, String.data_append, List.append_assoc, lexLe_append_left]
  exact lexLe_fmt04_append hi hj hij _ _

theorem sorted_frameNames {n : Nat} (hn : n ≤ 9999) : List.Sorted pyStrLe (frameNames n) := by
  rw [List.Sorted, frameNames]
  refine List.pairwise_iff_getElem.2 ?_
  intro i j hi hj hij
  simp only [List.length_map, List.length_range] at hi hj
  simp only [List.getElem_map, List.getElem_range]
  exact pyStrLe_frameName (by omega) (by omega) (by omega)

/-- Python's `str.endswith('.jpg')` (the filter in the frame-upload loop,
app.py line 681). -/
def jpgSuffix (s : String) : Bool := List.isSuffixOf ".jpg".data s.data

theorem jpgSuffix_frameName (k : Nat) : jpgSuffix (frameName k) = true := by
  rw [jpgSuffix, List.isSuffixOf_iff_suffix]
  simp only [frameName, String.data_append]
  exact List.suffix_append _ _

/-! ## Generic list counting helpers -/

theorem length_filterMap_isSome {α β : Type} (f : α → Option β) :
    ∀ l : List α, (l.filterMap f).length = (l.filter (fun a => (f a).isSome)).length := by
  intro l
  induction l with
  | nil => rfl
  | cons a l ih =>
    cases h : f a <;> simp [List.filterMap_cons, h, List.filter_cons, ih]

theorem length_filter_add_length_filter_not {α : Type} (p q : α → Bool)
    (hpq : ∀ a, q a = ! p a) :
    ∀ l : List α, (l.filter p).length + (l.filter q).length = l.length := by
  intro l
  induction l with
  | nil => rfl
  | cons a l ih => cases h : p a <;> simp [List.filter_cons, h, hpq] <;> omega

theorem filterMap_eq_map_of_forall {α β : Type} (f : α → Option β) (g : α → β) :
    ∀ {l : List α}, (∀ a ∈ l, f a = some (g a)) → l.filterMap f = l.map g := by
  intro l
  induction l with
  | nil => intro _; rfl
  | cons a l ih =>
    intro h
    rw [List.filterMap_cons, h a (by simp), List.map_cons,
      ih (fun x hx => h x (by simp [hx]))]

/-! ## ArtifactUploader: `upload_to_drive` / `upload_to_shared_drive`
(app.py 54-107 and 109-159)

The Google Drive API is modelled by an `UploadOracle` giving each upload's
remote outcome, keyed by the destination file name. Each function returns
the Python pair `(file, error)` together with the list of mutating
`files().create` calls it issued against the remote store, so "the remote
store was not contacted / remote state is unchanged" is `calls = []`.
Both source functions run their `os.path.exists` check before anything
else (before even building the service), so the non-mutating verification
reads of `upload_to_drive` are also only reachable after that check. -/

/-- The fields the source requests from the API: `id,name,webViewLink`. -/
structure DriveFile where
  id : String
  name : String
  webViewLink : String
deriving DecidableEq, Repr

/-- One `files().create(...)` call as issued against the remote store. -/
structure CreateCall where
  name : String
  parents : List String
  supportsAllDrives : Bool
deriving DecidableEq, Repr

/-- Remote-side outcome of an upload attempt, keyed by destination name. -/
structure UploadOracle where
  ok : String → Bool
  ref : String → DriveFile
  err : String → String

/-- `os.path.basename`. -/
def basename (p : String) : String :=
  String.mk ((p.data.reverse.takeWhile (fun c => c ≠ '/')).reverse)

/-- `upload_to_drive(file_path, folder_id, file_name)` (app.py 54-107).
`fs` is the local filesystem (existence predicate), `svc` whether
`get_drive_service()` returned a service, `envFolderId` the
`GOOGLE_DRIVE_FOLDER_ID` environment variable (empty/absent modelled as
`none`, matching Python truthiness). -/
def upload_to_drive (fs : String → Bool) (svc : Bool) (o : UploadOracle)
    (envFolderId : Option String) (file_path : String)
    (folder_id file_name : Option String) :
    (Option DriveFile × Option String) × List CreateCall :=
  if fs file_path = false then
    ((none, some ("File not found: " ++ file_path)), [])
  else if svc = false then
    ((none, some "Google Drive service not available"), [])
  else
    match folder_id.orElse fun _ => envFolderId with
    | none => ((none, some "No folder ID provided or configured"), [])
    | some fid =>
      let nm := file_name.getD (basename file_path)
      let call : CreateCall := ⟨nm, [fid], false⟩
      if o.ok nm then ((some (o.ref nm), none), [call])
      else ((none, some ("Upload failed: " ++ o.err nm)), [call])

/-- `upload_to_shared_drive(file_path, drive_id, folder_id, file_name)`
(app.py 109-159). When no folder id is supplied or configured, the file's
parent is the shared drive's own id (app.py 137-141), and the create call
passes `supportsAllDrives=True`. -/
def upload_to_shared_drive (fs : String → Bool) (svc : Bool) (o : UploadOracle)
    (envDriveId envFolderId : Option String) (file_path : String)
    (drive_id folder_id file_name : Option String) :
    (Option DriveFile × Option String) × List CreateCall :=
  if fs file_path = false then
    ((none, some ("File not found: " ++ file_path)), [])
  else if svc = false then
    ((none, some "Google Drive service not available"), [])
  else
    match drive_id.orElse fun _ => envDriveId with
    | none => ((none, some "No shared drive ID provided or configured"), [])
    | some d =>
      let fid := folder_id.orElse fun _ => envFolderId
      let nm := file_name.getD (basename file_path)
      let parents := match fid with
        | some f => [f]
        | none => [d]
      let call : CreateCall := ⟨nm, parents, true⟩
      if o.ok nm then ((some (o.ref nm), none), [call])
      else ((none, some ("Upload failed: " ++ o.err nm)), [call])

/-! ## MediaFetcher: `download_loom_video` (app.py 168-233) -/

/-- What the environment does when the fetcher runs: the primary tool's
diagnostic output and whether each strategy's destination file exists and
its size ("success criterion: destination exists and has non-zero size"). -/
structure FetchWorld where
  primaryStderr : String
  primaryFileExists : Bool
  primaryFileSize : Nat
  altFileExists : Bool
  altFileSize : Nat
deriving DecidableEq, Repr

/-- The fetcher's observable result: the Python `(path, error)` pair plus
how many times the fallback (`curl`) strategy was invoked and against which
URL. -/
structure FetchResult where
  path : Option String
  error : Option String
  fallbackInvocations : Nat
  fallbackUrl : Option String
deriving DecidableEq, Repr

/-- `download_loom_video(loom_url)` (app.py 168-233). The primary `yt-dlp`
run is trusted only if its destination file exists with non-zero size;
otherwise the video id is derived (`extract_video_id`, whose `ValueError`
is caught by the surrounding handler and returned as the error) and the
fallback `curl` fetch of the templated CDN URL is tried once, under the
same size criterion; if that also fails, the returned error carries the
primary strategy's stderr. -/
def download_loom_video (loom_url : String) (w : FetchWorld) (timestamp : Nat) : FetchResult :=
  let output_path := "/tmp/loom_video_" ++ Nat.repr timestamp ++ ".mp4"
  if w.primaryFileExists ∧ w.primaryFileSize > 0 then
    { path := some output_path, error := none, fallbackInvocations := 0, fallbackUrl := none }
  else
    match extract_video_id loom_url with
    | .error e =>
      { path := none, error := some e, fallbackInvocations := 0, fallbackUrl := none }
    | .ok video_id =>
      let alt_url := "https://cdn.loom.com/sessions/thumbnails/" ++ video_id ++ ".mp4"
      let alt_output_path := "/tmp/loom_direct_" ++ Nat.repr timestamp ++ ".mp4"
      if w.altFileExists ∧ w.altFileSize > 0 then
        { path := some alt_output_path, error := none,
          fallbackInvocations := 1, fallbackUrl := some alt_url }
      else
        { path := none, error := some ("Failed to download video: " ++ w.primaryStderr),
          fallbackInvocations := 1, fallbackUrl := some alt_url }

/-! ## FrameExtractor / AudioExtractor (app.py 235-261 and 263-294) -/

/-- An out-of-process tool run's observable outcome. -/
structure ToolRun where
  exitCode : Int
  stderr : String
deriving DecidableEq, Repr

/-- `extract_frames(video_path, output_folder, interval)` (app.py 235-261).
Returns the Python `(success, error)` pair and the `-vf` argument the
ffmpeg command was built with. `producedFrames` is the set of image files
the tool wrote: it is a parameter only to make explicit that the result
does not depend on it — the source trusts ffmpeg's exit code and never
re-checks the output directory. -/
def extract_frames (run : ToolRun) (producedFrames : List String)
    (video_path output_folder : String) (interval : Int) :
    (Bool × Option String) × String :=
  let vf := "fps=1/" ++ toString interval
  if run.exitCode = 0 then ((true, none), vf) else ((false, some run.stderr), vf)

/-- `extract_audio(video_path, output_folder)` (app.py 263-294): on tool
success the fixed path `output_folder/audio.wav`, else the tool's stderr. -/
def extract_audio (run : ToolRun) (video_path output_folder : String) :
    Option String × Option String :=
  let audio_path := output_folder ++ "/audio.wav"
  if run.exitCode = 0 then (some audio_path, none) else (none, some run.stderr)

/-! ## PipelineOrchestrator: the `/process` handler `process_video`
(app.py 573-733) -/

/-- The artifact kind tag (`"type"` in the JSON response). -/
inductive EntryKind
  | video
  | frame
  | audio
deriving DecidableEq, Repr

/-- One entry of the response's `files` list: `{"type": ..., "file": ...}`. -/
structure Entry where
  kind : EntryKind
  file : DriveFile
deriving DecidableEq, Repr

/-- The stage a run is in when it returns early. Each value tags one of the
handler's error `return` statements: `resolving` the line 599 return,
`fetching` line 615, `configCheck` lines 625 and 631, `extractingFrames`
line 644, `extractingAudio` line 655. `uploading` is listed so that its
unreachability is expressible. -/
inductive Stage
  | resolving
  | fetching
  | configCheck
  | extractingFrames
  | extractingAudio
  | uploading
deriving DecidableEq, Repr

/-- The handler's structured response. -/
inductive Outcome
  | badRequest (message : String)
  | aborted (stage : Stage) (message : String)
  | completed (video_id : String) (title : String) (files : List Entry)
deriving DecidableEq, Repr

/-- The run's local effects: directories `os.makedirs`-created, directories
removed (the source contains no removal call anywhere), the `-vf` argument
handed to ffmpeg when frame extraction was invoked, and how often the fetch
fallback ran. -/
structure Trace where
  createdDirs : List String
  removedDirs : List String
  ffmpegVf : Option String
  fallbackInvocations : Nat
deriving DecidableEq, Repr

/-- The inbound `/process` JSON body: `url`, optional `title`, optional
`interval` (already an integer; `int()` of an integer JSON value is the
identity). -/
structure Request where
  url : Option String
  title : Option String
  interval : Option Int

/-- Everything the environment decides during one `/process` run. The frame
files ffmpeg leaves in the (freshly created, run-private) frames directory
follow its `frame_%04d.jpg` output pattern, so they are determined by the
number of captured frames; `os.listdir`'s arbitrary order is irrelevant
because the handler sorts the listing and the names are distinct. -/
structure PipeWorld where
  fetch : FetchWorld
  timestamp : Nat
  folderId : Option String
  driveId : Option String
  serviceAvailable : Bool
  framesRun : ToolRun
  frameCount : Nat
  audioRun : ToolRun
  upload : UploadOracle

/-- The default title (app.py line 584). -/
def defaultTitle : String := "Standard Operating Procedure"

/-- The run's unique working directory (app.py 602-603). -/
def outputDir (w : PipeWorld) : String := "/tmp/loom_job_" ++ Nat.repr w.timestamp

/-- The per-run frames directory (app.py 607). -/
def framesDir (w : PipeWorld) : String := outputDir w ++ "/frames"

/-- The per-run audio directory (app.py 608). -/
def audioDir (w : PipeWorld) : String := outputDir w ++ "/audio"

/-- The fixed audio output path (app.py 268). -/
def audioPath (w : PipeWorld) : String := audioDir w ++ "/audio.wav"

/-- The local files present when the upload phase starts: the fetched video,
the extracted audio, and the frame files ffmpeg wrote. -/
def pipelineFs (w : PipeWorld) (video_path : String) : String → Bool := fun q =>
  (q == video_path) || (q == audioPath w) ||
    ((frameNames w.frameCount).map (fun nm => framesDir w ++ "/" ++ nm)).contains q

/-- One artifact upload as the handler performs it (app.py 662-716): the
shared-drive path when `GOOGLE_SHARED_DRIVE_ID` is set, the flat-folder
path otherwise, keeping only the `file` half of the returned pair. -/
def pipelineUpload (w : PipeWorld) (video_path path nm : String) : Option DriveFile :=
  if w.driveId.isSome then
    (upload_to_shared_drive (pipelineFs w video_path) w.serviceAvailable w.upload
      w.driveId w.folderId path w.driveId w.folderId (some nm)).1.1
  else
    (upload_to_drive (pipelineFs w video_path) w.serviceAvailable w.upload
      w.folderId path w.folderId (some nm)).1.1

/-- `process_video()` (app.py 573-733): resolve, fetch, check the Drive
configuration, extract frames, extract audio, then upload the video, every
`.jpg` file of the sorted frames listing, and the audio file — recording
each successful upload and ignoring individual failures — and answer
`success: true` with the id, title and collected artifact list. -/
def process_video (req : Request) (w : PipeWorld) : Outcome × Trace :=
  let title := req.title.getD defaultTitle
  let interval : Int := req.interval.getD 10
  match req.url with
  | none => (.badRequest "Missing Loom URL", ⟨[], [], none, 0⟩)
  | some loom_url =>
    match extract_video_id loom_url with
    | .error e =>
      (.aborted .resolving ("Failed to extract video ID: " ++ e), ⟨[], [], none, 0⟩)
    | .ok video_id =>
      let output_dir := outputDir w
      let frames_dir := framesDir w
      let audio_dir := audioDir w
      let fr := download_loom_video loom_url w.fetch w.timestamp
      match fr.path with
      | none =>
        (.aborted .fetching ("Failed to download video: " ++ fr.error.getD ""),
          ⟨[output_dir], [], none, fr.fallbackInvocations⟩)
      | some video_path =>
        if w.folderId.isNone ∧ w.driveId.isNone then
          (.aborted .configCheck "No Google Drive folder ID or Shared Drive ID configured",
            ⟨[output_dir], [], none, fr.fallbackInvocations⟩)
        else if w.serviceAvailable = false then
          (.aborted .configCheck "Google Drive service unavailable",
            ⟨[output_dir], [], none, fr.fallbackInvocations⟩)
        else
          let produced := frameNames w.frameCount
          let fres := extract_frames w.framesRun produced video_path frames_dir interval
          if fres.1.1 = false then
            (.aborted .extractingFrames ("Failed to extract frames: " ++ fres.1.2.getD ""),
              ⟨[output_dir, frames_dir], [], some fres.2, fr.fallbackInvocations⟩)
          else
            let ares := extract_audio w.audioRun video_path audio_dir
            match ares.1 with
            | none =>
              (.aborted .extractingAudio ("Failed to extract audio: " ++ ares.2.getD ""),
                ⟨[output_dir, frames_dir, audio_dir], [], some fres.2, fr.fallbackInvocations⟩)
            | some audio_path =>
              let doUpload : String → String → Option DriveFile := fun path nm =>
                pipelineUpload w video_path path nm
              let videoEntries := match doUpload video_path (title ++ "_video.mp4") with
                | some f => [Entry.mk .video f]
                | none => []
              let sortedListing := List.insertionSort pyStrLe produced
              let frameEntries := sortedListing.filterMap fun nm =>
                if jpgSuffix nm then
                  (doUpload (frames_dir ++ "/" ++ nm) (title ++ "_" ++ nm)).map (Entry.mk .frame)
                else none
              let audioEntries := match doUpload audio_path (title ++ "_audio.wav") with
                | some f => [Entry.mk .audio f]
                | none => []
              (.completed video_id title (videoEntries ++ frameEntries ++ audioEntries),
                ⟨[output_dir, frames_dir, audio_dir], [], some fres.2, fr.fallbackInvocations⟩)

/-- The frame entries of a response. -/
def framesOfOutcome : Outcome → List Entry
  | .completed _ _ files => files.filter fun e => e.kind == .frame
  | _ => []

/-- How many artifacts of kind `k` a file list carries. -/
def countKind (k : EntryKind) (files : List Entry) : Nat :=
  (files.filter fun e => e.kind == k).length

/-! ## The upload phase, characterized -/

theorem pipelineFs_video (w : PipeWorld) (vp : String) : pipelineFs w vp vp = true := by
  simp [pipelineFs]

theorem pipelineFs_audio (w : PipeWorld) (vp : String) :
    pipelineFs w vp (audioDir w ++ "/audio.wav") = true := by
  simp [pipelineFs, audioPath]

theorem pipelineFs_frame (w : PipeWorld) (vp nm : String)
    (h : nm ∈ frameNames w.frameCount) :
    pipelineFs w vp (framesDir w ++ "/" ++ nm) = true := by
  simp only [pipelineFs, Bool.or_eq_true]
  right
  simp only [List.contains_iff_exists_mem_beq, List.mem_map]
  exact ⟨framesDir w ++ "/" ++ nm, ⟨nm, h, rfl⟩, by simp⟩

/-- Once the preconditions of the upload phase hold, each upload's outcome
is exactly what the remote oracle answers for the destination name. -/
theorem pipelineUpload_eq (w : PipeWorld) (vp path nm : String)
    (hfs : pipelineFs w vp path = true)
    (hsvc : w.serviceAvailable = true)
    (hcfg : ¬ (w.folderId.isNone ∧ w.driveId.isNone)) :
    pipelineUpload w vp path nm =
      if w.upload.ok nm then some (w.upload.ref nm) else none := by
  unfold pipelineUpload
  cases hd : w.driveId with
  | some d =>
    simp only [Option.isSome_some, if_true]
    unfold upload_to_shared_drive
    simp only [hfs, hsvc, hd, Option.some_orElse, Bool.true_eq_false, if_false]
    by_cases hok : w.upload.ok nm <;> simp [hok]
  | none =>
    obtain ⟨f, hf⟩ : ∃ f, w.folderId = some f := by
      cases hf : w.folderId with
      | none => exact absurd ⟨by simp [hf], by simp [hd]⟩ hcfg
      | some f => exact ⟨f, rfl⟩
    simp only [hd, Option.isSome_none, Bool.false_eq_true, if_false]
    unfold upload_to_drive
    simp only [hfs, hsvc, hf, Option.some_orElse, Bool.true_eq_false, if_false]
    by_cases hok : w.upload.ok nm <;> simp [hok]

/-- The artifact list a completed run reports, given the remote oracle: the
video entry if its upload succeeded, then one entry per sorted frame whose
upload succeeded, then the audio entry if its upload succeeded. -/
def runFiles (w : PipeWorld) (title : String) : List Entry :=
  (if w.upload.ok (title ++ "_video.mp4") then
    [Entry.mk .video (w.upload.ref (title ++ "_video.mp4"))] else []) ++
  ((List.insertionSort pyStrLe (frameNames w.frameCount)).filterMap fun nm =>
    if w.upload.ok (title ++ "_" ++ nm) then
      some (Entry.mk .frame (w.upload.ref (title ++ "_" ++ nm))) else none) ++
  (if w.upload.ok (title ++ "_audio.wav") then
    [Entry.mk .audio (w.upload.ref (title ++ "_audio.wav"))] else [])

/-- A run whose resolution, fetch, configuration check and both extractions
succeed produces exactly the `completed` response with `runFiles`, records
the three created directories and removes none, and hands ffmpeg the
requested sampling interval. -/
theorem process_video_run (req : Request) (w : PipeWorld) (url vid p : String)
    (hurl : req.url = some url)
    (hvid : extract_video_id url = .ok vid)
    (hfetch : (download_loom_video url w.fetch w.timestamp).path = some p)
    (hcfg : ¬ (w.folderId.isNone ∧ w.driveId.isNone))
    (hsvc : w.serviceAvailable = true)
    (hfr : w.framesRun.exitCode = 0)
    (hau : w.audioRun.exitCode = 0) :
    process_video req w =
      (Outcome.completed vid (req.title.getD defaultTitle)
        (runFiles w (req.title.getD defaultTitle)),
       ⟨[outputDir w, framesDir w, audioDir w], [],
        some ("fps=1/" ++ toString (req.interval.getD 10)),
        (download_loom_video url w.fetch w.timestamp).fallbackInvocations⟩) := by
  unfold process_video
  rw [hurl]
  simp only [hvid]
  rw [hfetch]
  simp only [hcfg, if_false, hsvc, Bool.true_eq_false, extract_frames, extract_audio, hfr,
    hau, if_true, Bool.true_eq_false, Bool.false_eq_true]
  refine congrArg (fun x => (Outcome.completed vid _ x, _)) ?_
  have hframes :
      ((List.insertionSort pyStrLe (frameNames w.frameCount)).filterMap fun nm =>
        if jpgSuffix nm then
          (pipelineUpload w p (framesDir w ++ "/" ++ nm)
            ((req.title.getD defaultTitle) ++ "_" ++ nm)).map (Entry.mk .frame)
        else none) =
      ((List.insertionSort pyStrLe (frameNames w.frameCount)).filterMap fun nm =>
        if w.upload.ok ((req.title.getD defaultTitle) ++ "_" ++ nm) then
          some (Entry.mk .frame (w.upload.ref ((req.title.getD defaultTitle) ++ "_" ++ nm)))
        else none) := by
    refine List.filterMap_congr ?_
    intro nm hnm
    have hmem : nm ∈ frameNames w.frameCount := (List.mem_insertionSort _).1 hnm
    obtain ⟨i, _, hni⟩ := List.mem_map.1 hmem
    have hjpg : jpgSuffix nm = true := by rw [← hni]; exact jpgSuffix_frameName _
    rw [pipelineUpload_eq w p _ _ (pipelineFs_frame w p nm hmem) hsvc hcfg]
    by_cases hok : w.upload.ok ((req.title.getD defaultTitle) ++ "_" ++ nm) <;>
      simp [hjpg, hok]
  rw [runFiles]
  rw [pipelineUpload_eq w p p _ (pipelineFs_video w p) hsvc hcfg,
    pipelineUpload_eq w p _ _ (pipelineFs_audio w p) hsvc hcfg, hframes]
  by_cases hv : w.upload.ok ((req.title.getD defaultTitle) ++ "_video.mp4") <;>
    by_cases ha : w.upload.ok ((req.title.getD defaultTitle) ++ "_audio.wav") <;>
    simp [hv, ha]

/-- Counting the artifact kinds in a completed run's report when the video
and audio uploads succeed and exactly one frame upload fails. -/
theorem runFiles_counts (w : PipeWorld) (T : String)
    (hv : w.upload.ok (T ++ "_video.mp4") = true)
    (ha : w.upload.ok (T ++ "_audio.wav") = true)
    (hone : ((frameNames w.frameCount).filter fun nm =>
        ! w.upload.ok (T ++ "_" ++ nm)).length = 1) :
    countKind .frame (runFiles w T) = w.frameCount - 1 ∧
    countKind .video (runFiles w T) = 1 ∧
    countKind .audio (runFiles w T) = 1 ∧
    (runFiles w T).length = w.frameCount + 1 := by
  have hlen : (frameNames w.frameCount).length = w.frameCount := by
    simp [frameNames]
  set FM := ((List.insertionSort pyStrLe (frameNames w.frameCount)).filterMap fun nm =>
    if w.upload.ok (T ++ "_" ++ nm) then
      some (Entry.mk .frame (w.upload.ref (T ++ "_" ++ nm))) else none) with hFM
  have hsplit := length_filter_add_length_filter_not
    (fun nm => w.upload.ok (T ++ "_" ++ nm))
    (fun nm => ! w.upload.ok (T ++ "_" ++ nm)) (fun a => rfl) (frameNames w.frameCount)
  have hFMlen : FM.length = w.frameCount - 1 := by
    rw [hFM, length_filterMap_isSome]
    have hcongr : ((List.insertionSort pyStrLe (frameNames w.frameCount)).filter fun nm =>
        (if w.upload.ok (T ++ "_" ++ nm) then
          some (Entry.mk .frame (w.upload.ref (T ++ "_" ++ nm))) else none).isSome) =
        ((List.insertionSort pyStrLe (frameNames w.frameCount)).filter fun nm =>
          w.upload.ok (T ++ "_" ++ nm)) := by
      refine List.filter_congr ?_
      intro nm _
      by_cases hok : w.upload.ok (T ++ "_" ++ nm) <;> simp [hok]
    rw [hcongr,
      ((List.perm_insertionSort pyStrLe (frameNames w.frameCount)).filter
        (fun nm => w.upload.ok (T ++ "_" ++ nm))).length_eq]
    omega
  have hFMframe : ∀ e ∈ FM, e.kind = EntryKind.frame := by
    intro e he
    rw [hFM] at he
    obtain ⟨nm, _, hfe⟩ := List.mem_filterMap.1 he
    by_cases hok : w.upload.ok (T ++ "_" ++ nm)
    · rw [if_pos hok] at hfe
      cases hfe
      rfl
    · rw [if_neg hok] at hfe
      cases hfe
  have hrun : runFiles w T =
      Entry.mk .video (w.upload.ref (T ++ "_video.mp4")) ::
        (FM ++ [Entry.mk .audio (w.upload.ref (T ++ "_audio.wav"))]) := by
    rw [runFiles, if_pos hv, if_pos ha, hFM]
    simp
  have hvf : (EntryKind.video == EntryKind.frame) = false := rfl
  have haf : (EntryKind.audio == EntryKind.frame) = false := rfl
  have hvv : (EntryKind.video == EntryKind.video) = true := rfl
  have hav : (EntryKind.audio == EntryKind.video) = false := rfl
  have hva : (EntryKind.video == EntryKind.audio) = false := rfl
  have haa : (EntryKind.audio == EntryKind.audio) = true := rfl
  have hframe : countKind .frame (runFiles w T) = FM.length := by
    rw [hrun, countKind]
    have hself : List.filter (fun e => e.kind == EntryKind.frame) FM = FM :=
      List.filter_eq_self.2 (fun e he => by rw [hFMframe e he]; rfl)
    simp [List.filter_cons, List.filter_append, hself, hvf, haf]
  have hvideo : countKind .video (runFiles w T) = 1 := by
    rw [hrun, countKind]
    have hFMv : List.filter (fun e => e.kind == EntryKind.video) FM = [] :=
      List.filter_eq_nil_iff.2 (fun e he => by rw [hFMframe e he]; simp)
    simp [List.filter_cons, List.filter_append, hFMv, hvv, hav]
  have haudio : countKind .audio (runFiles w T) = 1 := by
    rw [hrun, countKind]
    have hFMa : List.filter (fun e => e.kind == EntryKind.audio) FM = [] :=
      List.filter_eq_nil_iff.2 (fun e he => by rw [hFMframe e he]; simp)
    simp [List.filter_cons, List.filter_append, hFMa, hva, haa]
  have htot : (runFiles w T).length = w.frameCount + 1 := by
    rw [hrun]
    simp only [List.length_cons, List.length_append, List.length_nil]
    omega
  exact ⟨by rw [hframe, hFMlen], hvideo, haudio, htot⟩

/-! ## SourceResolver lemmas -/

theorem dropLiteral_append : ∀ (p r : List Char), dropLiteral p (p ++ r) = some r
  | [], _ => rfl
  | c :: ps, r => by simp [dropLiteral, dropLiteral_append ps r]

theorem takeAlnum_append {tok post : List Char}
    (htok : ∀ ch ∈ tok, isAlnumChar ch = true)
    (hpost : ∀ ch ∈ post.take 1, isAlnumChar ch = false) :
    takeAlnum (tok ++ post) = (tok, post) := by
  induction tok with
  | nil =>
    cases post with
    | nil => rfl
    | cons c cs =>
      have hc := hpost c (by simp)
      simp [takeAlnum, hc]
  | cons c cs ih =>
    have hc := htok c (by simp)
    have ih2 := ih (fun ch h => htok ch (by simp [h]))
    simp [takeAlnum, hc, ih2]

theorem matchLoomAt_marker (c : Char) {mid tok post : List Char}
    (hc : c ≠ '\n')
    (hmid : mid = "share/".data ∨ mid = "embed/".data)
    (hne : tok ≠ [])
    (htok : ∀ ch ∈ tok, isAlnumChar ch = true)
    (hpost : ∀ ch ∈ post.take 1, isAlnumChar ch = false) :
    matchLoomAt ("loom".data ++ c :: ("com/".data ++ (mid ++ (tok ++ post)))) = some tok := by
  have hta := takeAlnum_append htok hpost
  have hemp : tok.isEmpty = false := by
    cases tok with
    | nil => exact absurd rfl hne
    | cons a l => rfl
  have hdot : ∀ t : List Char, dropDot (c :: t) = some t := by
    intro t
    simp [dropDot, hc]
  rw [matchLoomAt, dropLiteral_append]
  simp only [Option.some_bind]
  rw [hdot]
  simp only [Option.some_bind]
  rw [dropLiteral_append]
  simp only [Option.some_bind]
  rcases hmid with h | h <;> subst h
  · rw [dropLiteral_append]
    simp only [Option.orElse, Option.some_bind]
    rw [hta]
    simp [hemp]
  · rw [show dropLiteral "share/".data ("embed/".data ++ (tok ++ post)) = none from rfl]
    simp only [Option.orElse]
    rw [dropLiteral_append]
    simp only [Option.some_bind]
    rw [hta]
    simp [hemp]

theorem searchLoom_none {s : List Char}
    (h : ∀ i, matchLoomAt (s.drop i) = none) : searchLoom s = none := by
  induction s with
  | nil => rfl
  | cons c cs ih =>
    rw [searchLoom, show matchLoomAt (c :: cs) = none by simpa using h 0]
    exact ih fun i => by simpa using h (i + 1)

theorem searchLoom_append {pre rest tok : List Char}
    (hpre : ∀ i, i < pre.length → matchLoomAt ((pre ++ rest).drop i) = none)
    (hmatch : matchLoomAt rest = some tok) :
    searchLoom (pre ++ rest) = some tok := by
  induction pre with
  | nil =>
    cases rest with
    | nil => simp [matchLoomAt, dropLiteral] at hmatch
    | cons c cs => rw [List.nil_append, searchLoom, hmatch]
  | cons c ps ih =>
    rw [List.cons_append, searchLoom,
      show matchLoomAt (c :: (ps ++ rest)) = none by simpa using hpre 0 (by simp)]
    exact ih fun i hi => by simpa using hpre (i + 1) (by simpa using Nat.succ_lt_succ hi)

/-! ## The claims -/

/-- C3: for every source reference matching the share-form or embed-form
path pattern fixed in the source (`loom.com/(?:share|embed)/` with the
unescaped dot standing for any one non-newline character, as the code's
regex has it) followed by an alphanumeric token, `extract_video_id`
returns exactly the token embedded at the leftmost match; and for every
reference in which the pattern matches nowhere, it returns the
`ValueError` ("raises InvalidReferenceError"). The embedding is a pure
function, so no I/O and no resource allocation can occur on either path. -/
theorem extract_video_id_spec :
    (∀ (pre : List Char) (c : Char) (mid tok post : List Char),
      c ≠ '\n' →
      mid = "share/".data ∨ mid = "embed/".data →
      tok ≠ [] →
      (∀ ch ∈ tok, isAlnumChar ch = true) →
      (∀ ch ∈ post.take 1, isAlnumChar ch = false) →
      (∀ i, i < pre.length →
        matchLoomAt ((pre ++ ("loom".data ++ c :: ("com/".data ++ (mid ++ (tok ++ post))))).drop i)
          = none) →
      extract_video_id
          (String.mk (pre ++ ("loom".data ++ c :: ("com/".data ++ (mid ++ (tok ++ post)))))) =
        .ok (String.mk tok)) ∧
    (∀ s : List Char, (∀ i, matchLoomAt (s.drop i) = none) →
      extract_video_id (String.mk s) =
        .error "Could not extract video ID from the provided Loom URL") := by
  constructor
  · intro pre c mid tok post hc hmid hne htok hpost hpre
    rw [extract_video_id]
    rw [show (String.mk (pre ++ ("loom".data ++ c :: ("com/".data ++ (mid ++ (tok ++ post)))))).data
        = pre ++ ("loom".data ++ c :: ("com/".data ++ (mid ++ (tok ++ post)))) from rfl]
    rw [searchLoom_append hpre (matchLoomAt_marker c hc hmid hne htok hpost)]
  · intro s hs
    rw [extract_video_id,
      show (String.mk s).data = s from rfl, searchLoom_none hs]

/-- C3 sanity witness (the spec's end-to-end example): the share-form
reference resolves to its embedded token. Stated separately because the
claim theorem itself opens no hypothesis binder. -/
theorem extract_video_id_spec_example :
    extract_video_id "https://www.loom.com/share/abc123XYZ" = .ok "abc123XYZ" := by
  have h := extract_video_id_spec.1 "https://www.".data '.' "share/".data
    "abc123XYZ".data [] (by decide) (Or.inl rfl) (by decide) (by decide) (by decide)
    (by decide)
  exact h

/-- C6: frame extraction reports success exactly when the decoding tool's
exit status is success, and its result does not depend in any way on which
frame files were produced — in particular it can report success when zero
frames were written. -/
theorem extract_frames_trusts_exit_code (run : ToolRun) (p1 p2 : List String)
    (v o : String) (i : Int) :
    extract_frames run p1 v o i = extract_frames run p2 v o i ∧
    ((extract_frames run p1 v o i).1.1 = true ↔ run.exitCode = 0) := by
  refine ⟨rfl, ?_⟩
  by_cases h : run.exitCode = 0 <;> simp [extract_frames, h]

/-- C8: an upload whose local file does not exist returns the
`File not found` error and issues no call against the remote store, on both
the flat-folder and the shared-drive paths. -/
theorem upload_missing_file_no_remote_contact (fs : String → Bool) (svc : Bool)
    (o : UploadOracle) (envD envF : Option String) (path : String)
    (did fid fnm : Option String) (h : fs path = false) :
    upload_to_drive fs svc o envF path fid fnm =
      ((none, some ("File not found: " ++ path)), []) ∧
    upload_to_shared_drive fs svc o envD envF path did fid fnm =
      ((none, some ("File not found: " ++ path)), []) := by
  constructor <;> simp [upload_to_drive, upload_to_shared_drive, h]

/-- C8 witness: a concrete missing file is rejected without any remote
call by both uploaders. -/
theorem upload_missing_file_no_remote_contact_witness :
    upload_to_drive (fun _ => false) true ⟨fun _ => true, fun n => ⟨n, n, n⟩, fun _ => ""⟩
        (some "F") "/tmp/gone.mp4" (some "F") (some "x.mp4") =
      ((none, some ("File not found: " ++ "/tmp/gone.mp4")), []) ∧
    upload_to_shared_drive (fun _ => false) true ⟨fun _ => true, fun n => ⟨n, n, n⟩, fun _ => ""⟩
        (some "D") (some "F") "/tmp/gone.mp4" (some "D") (some "F") (some "x.mp4") =
      ((none, some ("File not found: " ++ "/tmp/gone.mp4")), []) :=
  upload_missing_file_no_remote_contact (fun _ => false) true
    ⟨fun _ => true, fun n => ⟨n, n, n⟩, fun _ => ""⟩ (some "D") (some "F") "/tmp/gone.mp4"
    (some "D") (some "F") (some "x.mp4") rfl

/-- C10: a shared-space upload with a configured shared drive but no folder
identifier (neither supplied nor configured) does not fail with a placement
error: it issues the create call with the shared drive's own identifier as
the parent, and the upload's outcome is decided solely by the remote
store's answer. -/
theorem shared_drive_root_placement (fs : String → Bool) (svc : Bool) (o : UploadOracle)
    (envD : Option String) (path : String) (did : Option String) (d nm : String)
    (hfs : fs path = true) (hsvc : svc = true)
    (hd : did.orElse (fun _ => envD) = some d) :
    (upload_to_shared_drive fs svc o envD none path did none (some nm)).2 =
      [⟨nm, [d], true⟩] ∧
    ((upload_to_shared_drive fs svc o envD none path did none (some nm)).1.1.isSome ↔
      o.ok nm = true) := by
  unfold upload_to_shared_drive
  rw [hfs, hsvc]
  simp only [Bool.true_eq_false, if_false, hd]
  by_cases hok : o.ok nm <;> simp [hok]

/-- A share-form reference, its resolution, and a benign world: used as the
concrete input of several counterexamples and witnesses. -/
def okUrl : String := "https://www.loom.com/share/abc123XYZ"

/-- A remote store that accepts every upload. -/
def okOracle : UploadOracle := ⟨fun _ => true, fun n => ⟨n, n, n⟩, fun _ => ""⟩

/-- A request with url `okUrl`, title "Demo", interval 15. -/
def okReq : Request := ⟨some okUrl, some "Demo", some 15⟩

/-- A world in which every stage and every upload succeeds: the primary
fetch leaves a 5-byte file, a flat folder is configured, both ffmpeg runs
exit 0 producing 3 frames, and all uploads are accepted. -/
def baseWorld : PipeWorld := {
  fetch := ⟨"", true, 5, false, 0⟩
  timestamp := 0
  folderId := some "F"
  driveId := none
  serviceAvailable := true
  framesRun := ⟨0, ""⟩
  frameCount := 3
  audioRun := ⟨0, ""⟩
  upload := okOracle }

/-- C2 counterexample: a fetch whose primary strategy leaves no destination
file but whose reference carries no extractable token. The claim says the
fallback is then invoked exactly once and the error carries the primary
strategy's stderr; in the code `extract_video_id` (called only inside the
fallback path) raises first, so the fallback runs zero times — even though
it would have succeeded here — and the returned error is the resolution
message, not the primary stderr "boom". -/
theorem fetch_fallback_cex :
    (download_loom_video "https://example.com/video" ⟨"boom", false, 0, true, 7⟩ 0).fallbackInvocations
      = 0 ∧
    (download_loom_video "https://example.com/video" ⟨"boom", false, 0, true, 7⟩ 0).error =
      some "Could not extract video ID from the provided Loom URL" :=
  ⟨rfl, rfl⟩

/-- C2 amended: for every fetch whose reference carries an extractable
token, the fallback is invoked exactly once when the primary strategy
leaves a missing or zero-byte destination (and never when the primary
succeeds), and if the fallback's output is also missing or zero-byte the
fetch fails with the error carrying the primary strategy's stderr. -/
theorem fetch_fallback_exactly_once (url : String) (w : FetchWorld) (ts : Nat)
    (vid : String) (hvid : extract_video_id url = .ok vid) :
    ((w.primaryFileExists ∧ w.primaryFileSize > 0) →
      (download_loom_video url w ts).fallbackInvocations = 0) ∧
    (¬ (w.primaryFileExists ∧ w.primaryFileSize > 0) →
      (download_loom_video url w ts).fallbackInvocations = 1 ∧
      (¬ (w.altFileExists ∧ w.altFileSize > 0) →
        (download_loom_video url w ts).path = none ∧
        (download_loom_video url w ts).error =
          some ("Failed to download video: " ++ w.primaryStderr))) := by
  constructor
  · intro h
    simp [download_loom_video, h]
  · intro h
    constructor
    · by_cases h2 : w.altFileExists ∧ w.altFileSize > 0 <;>
        simp [download_loom_video, h, hvid, h2]
    · intro h2
      constructor <;> simp [download_loom_video, h, hvid, h2]

/-- C2 witness: with a resolvable reference, primary failure and fallback
failure, the fallback ran once and the error carries the primary stderr. -/
theorem fetch_fallback_exactly_once_witness :
    (download_loom_video okUrl ⟨"boom", false, 0, false, 0⟩ 5).fallbackInvocations = 1 ∧
    (download_loom_video okUrl ⟨"boom", false, 0, false, 0⟩ 5).error =
      some ("Failed to download video: " ++ "boom") := by
  have h := fetch_fallback_exactly_once okUrl ⟨"boom", false, 0, false, 0⟩ 5 "abc123XYZ" rfl
  have h2 := h.2 (by simp)
  exact ⟨h2.1, (h2.2 (by simp)).2⟩

/-- C4 counterexample: a run that completes and produces its final report;
the claim says the working directory is then reclaimed, but the source
contains no directory-removal call at all: the run created
`/tmp/loom_job_0` (and its two subdirectories) and removed nothing. -/
theorem workdir_not_reclaimed_cex :
    (∃ files, (process_video okReq baseWorld).1 = .completed "abc123XYZ" "Demo" files) ∧
    (process_video okReq baseWorld).2.createdDirs =
      ["/tmp/loom_job_0", "/tmp/loom_job_0/frames", "/tmp/loom_job_0/audio"] ∧
    (process_video okReq baseWorld).2.removedDirs = [] := by
  exact ⟨⟨_, rfl⟩, rfl, rfl⟩

/-- C4 amended: no run — completed or aborted at any stage — ever removes
a directory; the working directory, created as soon as resolution
succeeds, is never reclaimed. -/
theorem workdir_never_reclaimed (req : Request) (w : PipeWorld) :
    (process_video req w).2.removedDirs = [] ∧
    (∀ url vid, req.url = some url → extract_video_id url = .ok vid →
      outputDir w ∈ (process_video req w).2.createdDirs) := by
  constructor
  · simp only [process_video]
    repeat' split
    all_goals rfl
  · intro url vid hurl hvid
    simp only [process_video, hurl, hvid]
    repeat' split
    all_goals simp

/-- A world in which frame extraction fails. -/
def framesFailWorld : PipeWorld := { baseWorld with framesRun := ⟨1, "ffmpeg-boom"⟩ }

/-- C5 counterexample: a run aborts from the `ExtractingFrames` stage (the
handler returns the 500 error of app.py line 644), though the claim allows
`Aborted` only from `Resolving` and `Fetching`. -/
theorem abort_from_extracting_frames_cex :
    (process_video okReq framesFailWorld).1 =
      .aborted .extractingFrames "Failed to extract frames: ffmpeg-boom" := rfl

/-- C5 amended: `Aborted` is reachable from `Resolving`, `Fetching`, the
drive-configuration check, `ExtractingFrames` and `ExtractingAudio`, but
never from `Uploading`: no run returns an uploading-stage abort. -/
theorem no_abort_from_uploading (req : Request) (w : PipeWorld) (m : String) :
    (process_video req w).1 ≠ .aborted .uploading m := by
  simp only [process_video]
  repeat' split
  all_goals simp

/-- The `-vf` argument of a frame-extraction invocation, whatever the exit
status. -/
theorem extract_frames_vf (run : ToolRun) (p : List String) (v o : String) (i : Int) :
    (extract_frames run p v o i).2 = "fps=1/" ++ toString i := by
  by_cases h : run.exitCode = 0 <;> simp [extract_frames, h]

/-- A request asking for a sampling interval of zero seconds. -/
def zeroIntervalReq : Request := ⟨some okUrl, none, some 0⟩

/-- C7 counterexample: a request whose interval coerces to 0 is not
rejected: the run hands ffmpeg the filter `fps=1/0` and completes. -/
theorem interval_zero_not_rejected_cex :
    (process_video zeroIntervalReq baseWorld).2.ffmpegVf = some "fps=1/0" ∧
    (∃ files, (process_video zeroIntervalReq baseWorld).1 =
      .completed "abc123XYZ" defaultTitle files) := by
  exact ⟨rfl, ⟨_, rfl⟩⟩

/-- C7 amended: the interval is optional with default 10 and is coerced by
`int()`, but no positivity check exists: whatever integer the request
carries (zero and negatives included) is passed unchanged to the frame
extraction stage as `fps=1/interval`. -/
theorem interval_passed_through (req : Request) (w : PipeWorld) (url vid p : String)
    (hurl : req.url = some url)
    (hvid : extract_video_id url = .ok vid)
    (hfetch : (download_loom_video url w.fetch w.timestamp).path = some p)
    (hcfg : ¬ (w.folderId.isNone ∧ w.driveId.isNone))
    (hsvc : w.serviceAvailable = true) :
    (process_video req w).2.ffmpegVf =
      some ("fps=1/" ++ toString (req.interval.getD 10)) := by
  simp only [process_video, hurl, hvid, hfetch]
  repeat' split
  all_goals simp_all [extract_frames_vf]

/-- C7 witness: a request with no interval runs frame extraction with the
default `fps=1/10`. -/
theorem interval_passed_through_witness :
    (process_video ⟨some okUrl, none, none⟩ baseWorld).2.ffmpegVf = some "fps=1/10" := by
  have h := interval_passed_through ⟨some okUrl, none, none⟩ baseWorld okUrl "abc123XYZ"
    "/tmp/loom_video_0.mp4" rfl rfl rfl (by decide) rfl
  exact h

/-- C1: when resolution, download, frame extraction and audio extraction
all succeed (and the Drive configuration is present, as the handler checks
between fetch and extraction), the run reaches the completed response with
`success = true`, the video id and the title, whatever the upload oracle
answers; and when the video and audio uploads succeed while exactly one of
the N frame uploads fails, the artifact list carries N-1 frame entries,
one video entry and one audio entry — N+1 artifacts in all — so no
individual upload failure stops the remaining uploads. -/
theorem process_completed_despite_upload_failures (req : Request) (w : PipeWorld)
    (url vid p : String)
    (hurl : req.url = some url)
    (hvid : extract_video_id url = .ok vid)
    (hfetch : (download_loom_video url w.fetch w.timestamp).path = some p)
    (hcfg : ¬ (w.folderId.isNone ∧ w.driveId.isNone))
    (hsvc : w.serviceAvailable = true)
    (hfr : w.framesRun.exitCode = 0)
    (hau : w.audioRun.exitCode = 0) :
    ∃ files, (process_video req w).1 =
        .completed vid (req.title.getD defaultTitle) files ∧
      (w.upload.ok (req.title.getD defaultTitle ++ "_video.mp4") = true →
       w.upload.ok (req.title.getD defaultTitle ++ "_audio.wav") = true →
       ((frameNames w.frameCount).filter fun nm =>
           ! w.upload.ok (req.title.getD defaultTitle ++ "_" ++ nm)).length = 1 →
       countKind .frame files = w.frameCount - 1 ∧
       countKind .video files = 1 ∧
       countKind .audio files = 1 ∧
       files.length = w.frameCount + 1) := by
  refine ⟨runFiles w (req.title.getD defaultTitle), ?_, ?_⟩
  · rw [process_video_run req w url vid p hurl hvid hfetch hcfg hsvc hfr hau]
  · exact fun hv ha hone => runFiles_counts w _ hv ha hone

/-- A remote store that rejects exactly the second frame of a "Demo" run
and accepts everything else. -/
def oneFailOracle : UploadOracle :=
  ⟨fun nm => ! (nm == "Demo_frame_0002.jpg"), fun n => ⟨n, n, n⟩, fun _ => ""⟩

/-- `baseWorld` with the upload of the second frame failing. -/
def oneFailWorld : PipeWorld := { baseWorld with upload := oneFailOracle }

/-- C1 witness: a 3-frame run in which exactly the second frame upload
fails still completes with 2 frame entries, the video and the audio — 4
artifacts. -/
theorem process_completed_despite_upload_failures_witness :
    ∃ files, (process_video okReq oneFailWorld).1 = .completed "abc123XYZ" "Demo" files ∧
      (countKind .frame files = 2 ∧ countKind .video files = 1 ∧
       countKind .audio files = 1 ∧ files.length = 4) := by
  obtain ⟨files, h1, h2⟩ := process_completed_despite_upload_failures okReq oneFailWorld
    okUrl "abc123XYZ" "/tmp/loom_video_0.mp4" rfl rfl rfl (by decide) rfl rfl rfl
  have h3 := h2 (by decide) (by decide) (by decide)
  exact ⟨files, h1, h3.1, h3.2.1, h3.2.2.1, h3.2.2.2⟩

/-- C9 amended: on a successful run with title T in which every upload
succeeds, the video is uploaded as `T_video.mp4`, the audio as
`T_audio.wav` and the frames as `T_frame_NNNN.jpg` with NNNN the
zero-padded 1-based capture index; and whenever the run produced at most
9999 frames — so that the four-digit padding makes lexicographic and
numeric order coincide — the report lists the frames in capture order.
(Beyond 9999 frames the two orders diverge: see the counterexample.) -/
theorem artifact_names_and_order (req : Request) (w : PipeWorld) (url vid p : String)
    (hurl : req.url = some url)
    (hvid : extract_video_id url = .ok vid)
    (hfetch : (download_loom_video url w.fetch w.timestamp).path = some p)
    (hcfg : ¬ (w.folderId.isNone ∧ w.driveId.isNone))
    (hsvc : w.serviceAvailable = true)
    (hfr : w.framesRun.exitCode = 0)
    (hau : w.audioRun.exitCode = 0)
    (hok : ∀ nm, w.upload.ok nm = true)
    (hN : w.frameCount ≤ 9999) :
    (process_video req w).1 =
      .completed vid (req.title.getD defaultTitle)
        ([Entry.mk .video (w.upload.ref (req.title.getD defaultTitle ++ "_video.mp4"))] ++
         (List.range w.frameCount).map (fun i =>
           Entry.mk .frame (w.upload.ref
             (req.title.getD defaultTitle ++ "_frame_" ++ fmt04 (i + 1) ++ ".jpg"))) ++
         [Entry.mk .audio (w.upload.ref (req.title.getD defaultTitle ++ "_audio.wav"))]) := by
  rw [process_video_run req w url vid p hurl hvid hfetch hcfg hsvc hfr hau]
  show Outcome.completed _ _ (runFiles w (req.title.getD defaultTitle)) = _
  have hname : ∀ i : Nat,
      req.title.getD defaultTitle ++ "_" ++ frameName (i + 1) =
      req.title.getD defaultTitle ++ "_frame_" ++ fmt04 (i + 1) ++ ".jpg" := by
    intro i
    apply String.ext
    simp [frameName, String.data_append, List.append_assoc]
  have hmid :
      ((List.insertionSort pyStrLe (frameNames w.frameCount)).filterMap fun nm =>
        if w.upload.ok (req.title.getD defaultTitle ++ "_" ++ nm) then
          some (Entry.mk .frame (w.upload.ref (req.title.getD defaultTitle ++ "_" ++ nm)))
        else none) =
      (List.range w.frameCount).map (fun i =>
        Entry.mk .frame (w.upload.ref
          (req.title.getD defaultTitle ++ "_frame_" ++ fmt04 (i + 1) ++ ".jpg"))) := by
    rw [(sorted_frameNames hN).insertionSort_eq,
      filterMap_eq_map_of_forall _
        (fun nm => Entry.mk .frame (w.upload.ref (req.title.getD defaultTitle ++ "_" ++ nm)))
        (fun a _ => by rw [if_pos (hok _)]),
      frameNames, List.map_map]
    refine List.map_congr_left ?_
    intro i _
    show Entry.mk .frame (w.upload.ref (req.title.getD defaultTitle ++ "_" ++ frameName (i + 1))) = _
    rw [hname i]
  rw [runFiles, if_pos (hok _), if_pos (hok _), hmid]

/-- C9 witness: the spec's end-to-end example — title "Demo", 3 frames, all
uploads accepted — reports `Demo_video.mp4`, then `Demo_frame_0001.jpg`,
`Demo_frame_0002.jpg`, `Demo_frame_0003.jpg` in capture order, then
`Demo_audio.wav`. -/
theorem artifact_names_and_order_witness :
    (process_video okReq baseWorld).1 =
      .completed "abc123XYZ" "Demo"
        ([Entry.mk .video (okOracle.ref ("Demo" ++ "_video.mp4"))] ++
         (List.range 3).map (fun i =>
           Entry.mk .frame (okOracle.ref ("Demo" ++ "_frame_" ++ fmt04 (i + 1) ++ ".jpg"))) ++
         [Entry.mk .audio (okOracle.ref ("Demo" ++ "_audio.wav"))]) := by
  have h := artifact_names_and_order okReq baseWorld okUrl "abc123XYZ" "/tmp/loom_video_0.mp4"
    rfl rfl rfl (by decide) rfl rfl rfl (fun nm => rfl) (by decide)
  exact h

/-- `baseWorld` with ten thousand captured frames. -/
def bigWorld : PipeWorld := { baseWorld with frameCount := 10000 }

/-- The entry a frame file named `nm` contributes to `bigWorld`'s report. -/
def bigEntry (nm : String) : Entry :=
  Entry.mk .frame (bigWorld.upload.ref (okReq.title.getD defaultTitle ++ "_" ++ nm))

/-- C9 counterexample: with 10000 captured frames (ffmpeg's `%04d` emits
five digits from 10000 on) the sorted listing no longer coincides with
capture order — `frame_10000.jpg` sorts before `frame_9999.jpg` — so the
report's frame entries are not in capture order: the claim's universal
ordering statement fails. -/
theorem frame_report_order_cex :
    framesOfOutcome (process_video okReq bigWorld).1 ≠
      (frameNames 10000).map bigEntry := by
  intro heq
  have hrun := process_video_run okReq bigWorld okUrl "abc123XYZ" "/tmp/loom_video_0.mp4"
    rfl rfl rfl (by decide) rfl rfl rfl
  rw [hrun] at heq
  simp only [framesOfOutcome] at heq
  rw [runFiles,
    if_pos (show bigWorld.upload.ok (okReq.title.getD defaultTitle ++ "_video.mp4") = true
      from rfl),
    if_pos (show bigWorld.upload.ok (okReq.title.getD defaultTitle ++ "_audio.wav") = true
      from rfl),
    filterMap_eq_map_of_forall _ bigEntry (fun a _ => by
      rw [if_pos (show bigWorld.upload.ok (okReq.title.getD defaultTitle ++ "_" ++ a) = true
        from rfl)]
      rfl)] at heq
  have hall : ∀ e ∈ (List.insertionSort pyStrLe
      (frameNames bigWorld.frameCount)).map bigEntry,
      (e.kind == EntryKind.frame) = true := by
    intro e he
    obtain ⟨nm, _, hnm⟩ := List.mem_map.1 he
    rw [← hnm]
    rfl
  rw [List.filter_append, List.filter_append, List.filter_eq_self.2 hall,
    show List.filter (fun e => e.kind == EntryKind.frame)
        [Entry.mk EntryKind.video
          (bigWorld.upload.ref (okReq.title.getD defaultTitle ++ "_video.mp4"))] = []
      from rfl,
    show List.filter (fun e => e.kind == EntryKind.frame)
        [Entry.mk EntryKind.audio
          (bigWorld.upload.ref (okReq.title.getD defaultTitle ++ "_audio.wav"))] = []
      from rfl,
    List.nil_append, List.append_nil] at heq
  have hlists : List.insertionSort pyStrLe (frameNames 10000) = frameNames 10000 := by
    have hinj : Function.Injective bigEntry := by
      intro a b hab
      have h1 : okReq.title.getD defaultTitle ++ "_" ++ a =
          okReq.title.getD defaultTitle ++ "_" ++ b :=
        congrArg (fun e => e.file.id) hab
      have h2 := congrArg String.data h1
      simp only [String.data_append] at h2
      apply String.ext
      exact List.append_cancel_left h2
    exact List.map_injective_iff.2 hinj heq
  have hsor : List.Sorted pyStrLe (frameNames 10000) := by
    have h := List.sorted_insertionSort pyStrLe (frameNames 10000)
    rwa [hlists] at h
  have hsor2 : List.Pairwise (fun a b => pyStrLe (frameName (a + 1)) (frameName (b + 1)))
      (List.range 10000) := by
    rw [frameNames] at hsor
    exact List.pairwise_map.1 hsor
  have hpair := List.pairwise_iff_getElem.1 hsor2 9998 9999 (by simp) (by simp) (by omega)
  simp only [List.getElem_range] at hpair
  exact absurd hpair (by decide)

/-- C10 witness: with a shared drive configured and no folder anywhere, the
create call's parent is the shared drive id and the upload proceeds. -/
theorem shared_drive_root_placement_witness :
    (upload_to_shared_drive (fun _ => true) true
        ⟨fun _ => true, fun n => ⟨n, n, n⟩, fun _ => ""⟩ none none "/tmp/a.mp4"
        (some "DRIVE") none (some "a.mp4")).2 = [⟨"a.mp4", ["DRIVE"], true⟩] ∧
    ((upload_to_shared_drive (fun _ => true) true
        ⟨fun _ => true, fun n => ⟨n, n, n⟩, fun _ => ""⟩ none none "/tmp/a.mp4"
        (some "DRIVE") none (some "a.mp4")).1.1.isSome ↔
      (⟨fun _ => true, fun n => ⟨n, n, n⟩, fun _ => ""⟩ : UploadOracle).ok "a.mp4" = true) :=
  shared_drive_root_placement (fun _ => true) true
    ⟨fun _ => true, fun n => ⟨n, n, n⟩, fun _ => ""⟩ none "/tmp/a.mp4"
    (some "DRIVE") "DRIVE" "a.mp4" rfl rfl rfl

end Loom
